import Mathlib

set_option maxHeartbeats 1000000

/-!
Verification of the device-service reconciliation and x509 configuration
logic of terraform-provider-wallix-bastion, over a shallow embedding of its
Go source. Remote calls go through an explicit gateway environment and every
operation returns its request log next to its result, so theorems can speak
about which network calls were issued.
-/

/-- Embedding of Go strings.Contains on the character lists of the two strings:
true when the second list occurs contiguously inside the first. -/
def goContainsAux : List Char → List Char → Bool
  | [], sub => sub.isEmpty
  | c :: rest, sub => sub.isPrefixOf (c :: rest) || goContainsAux rest sub

/-- Embedding of Go strings.Contains s substr. -/
def goContains (s substr : String) : Bool := goContainsAux s.toList substr.toList

/-- Splitting into fields at every occurrence of a one-character separator,
the semantics of Go strings.Split with a single-character separator (an empty
input yields one empty field; no separator yields the whole input as the one
field). -/
def goSplitAux (sep : Char) : List Char → List Char → List String
  | [], acc => [String.mk acc.reverse]
  | c :: rest, acc =>
    if c = sep then String.mk acc.reverse :: goSplitAux sep rest []
    else goSplitAux sep rest (c :: acc)

/-- Embedding of Go strings.Split s sep for a one-character separator. -/
def goSplit (s : String) (sep : Char) : List String := goSplitAux sep s.toList []

/-- Wire record jsonDeviceService from the source; the JSON struct tags
(omitempty markers) are modelled separately by wireFields. -/
structure JsonDeviceService where
  port : Int
  id : String
  connectionPolicy : String
  protocol : String
  serviceName : String
  globalDomains : Option (List String)
  subProtocols : Option (List String)
deriving DecidableEq

/-- The Go zero value of jsonDeviceService (a fresh var result). -/
def JsonDeviceService.zero : JsonDeviceService :=
  ⟨0, "", "", "", "", none, none⟩

/-- Model of the Terraform SDK ResourceData for wallix-bastion_device_service:
the declared fields, the tracked identifier, and the per-field change state the
SDK maintains (d.HasChange); the source consults only hasChangeGlobalDomains. -/
structure ResourceData where
  id : String
  device_id : String
  service_name : String
  connection_policy : String
  port : Int
  protocol : String
  global_domains : List String
  subprotocols : List String
  hasChangeGlobalDomains : Bool
  hasChangeConnectionPolicy : Bool
  hasChangePort : Bool
  hasChangeSubprotocols : Bool
deriving DecidableEq

/-- sshSubProtocolsValid from the source. -/
def sshSubProtocolsValid : List String :=
  ["SSH_SHELL_SESSION", "SSH_REMOTE_COMMAND", "SSH_SCP_UP", "SSH_SCP_DOWN",
   "SSH_X11", "SFTP_SESSION", "SSH_DIRECT_TCPIP", "SSH_REVERSE_TCPIP",
   "SSH_AUTH_AGENT", "SSH_DIRECT_UNIXSOCK", "SSH_REVERSE_UNIXSOCK"]

/-- rdpSubProtocolsValid from the source. -/
def rdpSubProtocolsValid : List String :=
  ["RDP_CLIPBOARD_UP", "RDP_CLIPBOARD_DOWN", "RDP_CLIPBOARD_FILE", "RDP_PRINTER",
   "RDP_COM_PORT", "RDP_DRIVE", "RDP_SMARTCARD", "RDP_AUDIO_OUTPUT", "RDP_AUDIO_INPUT"]

/-- The per-token validation loop inside prepareDeviceServiceJSON: the switch on
the declared protocol runs for every element of the subprotocols set and the
first offending token aborts with its error. -/
def subProtocolsLoop (protocol : String) : List String → Except String (List String)
  | [] => Except.ok []
  | v :: rest =>
    if protocol = "SSH" then
      if sshSubProtocolsValid.contains v then
        match subProtocolsLoop protocol rest with
        | Except.ok l => Except.ok (v :: l)
        | Except.error e => Except.error e
      else Except.error ("subprotocols " ++ v ++ " not valid for SSH service")
    else if protocol = "RDP" then
      if rdpSubProtocolsValid.contains v then
        match subProtocolsLoop protocol rest with
        | Except.ok l => Except.ok (v :: l)
        | Except.error e => Except.error e
      else Except.error ("subprotocols " ++ v ++ " not valid for RDP service")
    else Except.error ("subprotocols need to not set for " ++ protocol ++ " service")

/-- prepareDeviceServiceJSON from the source: connection_policy and port always;
service_name and protocol only when newResource; global_domains only when the
SDK reports a change on it; subprotocols validated and included whenever the
declared set is non-empty. -/
def prepareDeviceServiceJSON (d : ResourceData) (newResource : Bool) :
    Except String JsonDeviceService :=
  let j0 : JsonDeviceService :=
    { JsonDeviceService.zero with
      connectionPolicy := d.connection_policy
      port := d.port }
  let j1 := if newResource then
      { j0 with serviceName := d.service_name, protocol := d.protocol } else j0
  let j2 := if d.hasChangeGlobalDomains then
      { j1 with globalDomains := some d.global_domains } else j1
  if d.subprotocols.length > 0 then
    match subProtocolsLoop d.protocol d.subprotocols with
    | Except.error e => Except.error e
    | Except.ok subs => Except.ok { j2 with subProtocols := some subs }
  else Except.ok j2

/-- The JSON keys emitted for a jsonDeviceService value, following the
encoding/json struct tags of the source: port and connection_policy carry no
omitempty and are always sent; id, protocol and service_name are strings with
omitempty (empty string omitted); global_domains and subprotocols are pointers
with omitempty (nil pointer omitted). -/
def wireFields (j : JsonDeviceService) : List String :=
  ["port"] ++ (if j.id = "" then [] else ["id"]) ++ ["connection_policy"]
    ++ (if j.protocol = "" then [] else ["protocol"])
    ++ (if j.serviceName = "" then [] else ["service_name"])
    ++ (if j.globalDomains.isSome then ["global_domains"] else [])
    ++ (if j.subProtocols.isSome then ["subprotocols"] else [])

/-- One HTTP request issued through Client.newRequest. -/
structure ApiRequest where
  path : String
  method : String
  payload : Option JsonDeviceService
deriving DecidableEq

/-- Modelled from the spec: the parent device record read by readDeviceOptions
(declared in the device resource file, which is not among the provided sources);
only its opaque identifier is consulted here. -/
structure JsonDevice where
  id : String
deriving DecidableEq

/-- The listing request issued by searchResourceDeviceService. -/
def searchReq (deviceID serviceName : String) : ApiRequest :=
  ⟨"/devices/" ++ deviceID ++ "/services/?q=service_name=" ++ serviceName, "GET", none⟩

/-- The parent-device read request issued by readDeviceOptions. -/
def deviceReq (deviceID : String) : ApiRequest :=
  ⟨"/devices/" ++ deviceID, "GET", none⟩

/-- The by-ID fetch request issued by readDeviceServiceOptions. -/
def serviceReq (deviceID serviceID : String) : ApiRequest :=
  ⟨"/devices/" ++ deviceID ++ "/services/" ++ serviceID, "GET", none⟩

/-- The create request issued by addDeviceService. -/
def addReq (deviceID : String) (j : JsonDeviceService) : ApiRequest :=
  ⟨"/devices/" ++ deviceID ++ "/services/", "POST", some j⟩

/-- The forced update request issued by updateDeviceService. -/
def updateReq (deviceID serviceID : String) (j : JsonDeviceService) : ApiRequest :=
  ⟨"/devices/" ++ deviceID ++ "/services/" ++ serviceID ++ "?force=true", "PUT", some j⟩

/-- The delete request issued by deleteDeviceService. -/
def deleteReq (deviceID serviceID : String) : ApiRequest :=
  ⟨"/devices/" ++ deviceID ++ "/services/" ++ serviceID, "DELETE", none⟩

/-- The environment a device-service operation runs against: the remote gateway
(a function of the request history, so pre- and post-create responses can
differ), the JSON unmarshallers, the provider-wide supported-version list
(defaultVersionsValid, declared outside the provided sources) and the
discovered bastionAPIVersion of the Client. -/
structure ApiEnv where
  api : List ApiRequest → ApiRequest → Except String (String × Nat)
  parseList : String → Except String (List JsonDeviceService)
  parseOne : String → Except String JsonDeviceService
  parseDevice : String → Except String JsonDevice
  defaultVersionsValid : List String
  bastionAPIVersion : String

/-- Embedding of Client.newRequest; the request history is threaded explicitly
so that theorems can speak about which network calls an operation issued. -/
def newRequest (env : ApiEnv) (hist : List ApiRequest) (req : ApiRequest) :
    List ApiRequest × Except String (String × Nat) :=
  (hist ++ [req], env.api hist req)

/-- searchResourceDeviceService from the source: filtered listing by
service_name under the device; exactly one result means found, anything else
(zero or several) is reported as not found without error. -/
def searchResourceDeviceService (env : ApiEnv) (hist : List ApiRequest)
    (deviceID serviceName : String) :
    List ApiRequest × Except String (String × Bool) :=
  let (h1, r) := newRequest env hist (searchReq deviceID serviceName)
  match r with
  | Except.error e => (h1, Except.error e)
  | Except.ok (body, code) =>
    if code ≠ 200 then
      (h1, Except.error ("api doesn\x27t return OK: " ++ toString code ++
        " with body:\n" ++ body))
    else
      match env.parseList body with
      | Except.error e => (h1, Except.error ("unmarshaling json: " ++ e))
      | Except.ok results =>
        if results.length = 1 then
          (h1, Except.ok ((results.headD JsonDeviceService.zero).id, true))
        else (h1, Except.ok ("", false))

/-- readDeviceServiceOptions from the source: 404 yields the zero value without
error, any other non-200 code is a remote error, 200 is unmarshalled. -/
def readDeviceServiceOptions (env : ApiEnv) (hist : List ApiRequest)
    (deviceID serviceID : String) :
    List ApiRequest × Except String JsonDeviceService :=
  let (h1, r) := newRequest env hist (serviceReq deviceID serviceID)
  match r with
  | Except.error e => (h1, Except.error e)
  | Except.ok (body, code) =>
    if code = 404 then (h1, Except.ok JsonDeviceService.zero)
    else if code ≠ 200 then
      (h1, Except.error ("api doesn\x27t return OK: " ++ toString code ++
        " with body:\n" ++ body))
    else
      match env.parseOne body with
      | Except.error e => (h1, Except.error ("unmarshaling json: " ++ e))
      | Except.ok result => (h1, Except.ok result)

/-- Modelled from the spec: readDeviceOptions (declared in the device resource
file, not among the provided sources) reads the parent device by its ID over
the gateway; a 404 response yields the zero value (empty ID, mapped to absent),
any other non-200 response is a remote error, and 200 is unmarshalled. -/
def readDeviceOptions (env : ApiEnv) (hist : List ApiRequest) (deviceID : String) :
    List ApiRequest × Except String JsonDevice :=
  let (h1, r) := newRequest env hist (deviceReq deviceID)
  match r with
  | Except.error e => (h1, Except.error e)
  | Except.ok (body, code) =>
    if code = 404 then (h1, Except.ok ⟨""⟩)
    else if code ≠ 200 then
      (h1, Except.error ("api doesn\x27t return OK: " ++ toString code ++
        " with body:\n" ++ body))
    else
      match env.parseDevice body with
      | Except.error e => (h1, Except.error ("unmarshaling json: " ++ e))
      | Except.ok result => (h1, Except.ok result)

/-- addDeviceService from the source: translate (newResource true) and POST;
a translation failure returns before any request is issued. -/
def addDeviceService (env : ApiEnv) (hist : List ApiRequest) (d : ResourceData) :
    List ApiRequest × Except String Unit :=
  match prepareDeviceServiceJSON d true with
  | Except.error e => (hist, Except.error e)
  | Except.ok json =>
    let (h1, r) := newRequest env hist (addReq d.device_id json)
    match r with
    | Except.error e => (h1, Except.error e)
    | Except.ok (body, code) =>
      if code ≠ 200 ∧ code ≠ 204 then
        (h1, Except.error ("api doesn\x27t return OK or NoContent: " ++
          toString code ++ " with body:\n" ++ body))
      else (h1, Except.ok ())

/-- updateDeviceService from the source: translate (newResource false) and PUT
with the explicit force flag. -/
def updateDeviceService (env : ApiEnv) (hist : List ApiRequest) (d : ResourceData) :
    List ApiRequest × Except String Unit :=
  match prepareDeviceServiceJSON d false with
  | Except.error e => (hist, Except.error e)
  | Except.ok json =>
    let (h1, r) := newRequest env hist (updateReq d.device_id d.id json)
    match r with
    | Except.error e => (h1, Except.error e)
    | Except.ok (body, code) =>
      if code ≠ 200 ∧ code ≠ 204 then
        (h1, Except.error ("api doesn\x27t return OK or NoContent: " ++
          toString code ++ " with body:\n" ++ body))
      else (h1, Except.ok ())

/-- deleteDeviceService from the source: DELETE by tracked ID; only 200 and 204
are accepted, every other code (404 included) is returned as an error. -/
def deleteDeviceService (env : ApiEnv) (hist : List ApiRequest) (d : ResourceData) :
    List ApiRequest × Except String Unit :=
  let (h1, r) := newRequest env hist (deleteReq d.device_id d.id)
  match r with
  | Except.error e => (h1, Except.error e)
  | Except.ok (body, code) =>
    if code ≠ 200 ∧ code ≠ 204 then
      (h1, Except.error ("api doesn\x27t return OK or NoContent: " ++
        toString code ++ " with body:\n" ++ body))
    else (h1, Except.ok ())

/-- resourceDeviceServiceVersionCheck from the source; the supported-version
list defaultVersionsValid is supplied as a parameter since its definition lies
outside the provided sources. -/
def resourceDeviceServiceVersionCheck (valid : List String) (version : String) :
    Option String :=
  if valid.contains version then none
  else some ("resource wallix-bastion_device_service not available with api version "
    ++ version)

/-- Modelled from the spec: resourceDeviceVersionCheck is the version gate of
the wallix-bastion_device resource kind (its file is not among the provided
sources); per the spec the gate fails fast with a message naming its own
resource kind and the unsupported version, against the provider-wide
supported-version list. -/
def resourceDeviceVersionCheck (valid : List String) (version : String) :
    Option String :=
  if valid.contains version then none
  else some ("resource wallix-bastion_device not available with api version " ++ version)

/-- fillDeviceService from the source: copies the observed wire record back
into the declared-state record (a nil pointer for a set field becomes empty). -/
def fillDeviceService (d : ResourceData) (jsonData : JsonDeviceService) : ResourceData :=
  { d with
    service_name := jsonData.serviceName
    connection_policy := jsonData.connectionPolicy
    port := jsonData.port
    protocol := jsonData.protocol
    global_domains := jsonData.globalDomains.getD []
    subprotocols := jsonData.subProtocols.getD [] }

/-- resourceDeviceServiceRead from the source: version gate, fetch by opaque
ID, empty observed ID clears the tracked identity, otherwise fill. -/
def resourceDeviceServiceRead (env : ApiEnv) (hist : List ApiRequest) (d : ResourceData) :
    List ApiRequest × Except String ResourceData :=
  match resourceDeviceServiceVersionCheck env.defaultVersionsValid env.bastionAPIVersion with
  | some e => (hist, Except.error e)
  | none =>
    let (h1, r) := readDeviceServiceOptions env hist d.device_id d.id
    match r with
    | Except.error e => (h1, Except.error e)
    | Except.ok cfg =>
      if cfg.id = "" then (h1, Except.ok { d with id := "" })
      else (h1, Except.ok (fillDeviceService d cfg))

/-- resourceDeviceServiceCreate from the source: version gate, parent-device
existence read, pre-create search (already-exists check), POST, post-create
search to recover the opaque ID, then the read chain. -/
def resourceDeviceServiceCreate (env : ApiEnv) (d : ResourceData) :
    List ApiRequest × Except String ResourceData :=
  match resourceDeviceServiceVersionCheck env.defaultVersionsValid env.bastionAPIVersion with
  | some e => ([], Except.error e)
  | none =>
    let (h1, r1) := readDeviceOptions env [] d.device_id
    match r1 with
    | Except.error e => (h1, Except.error e)
    | Except.ok cfg =>
      if cfg.id = "" then
        (h1, Except.error ("device with ID " ++ d.device_id ++ " doesn\x27t exists"))
      else
        let (h2, r2) := searchResourceDeviceService env h1 d.device_id d.service_name
        match r2 with
        | Except.error e => (h2, Except.error e)
        | Except.ok (_, ex) =>
          if ex then
            (h2, Except.error ("service_name " ++ d.service_name ++ " on device_id " ++
              d.device_id ++ " already exists"))
          else
            let (h3, r3) := addDeviceService env h2 d
            match r3 with
            | Except.error e => (h3, Except.error e)
            | Except.ok _ =>
              let (h4, r4) := searchResourceDeviceService env h3 d.device_id d.service_name
              match r4 with
              | Except.error e => (h4, Except.error e)
              | Except.ok (newID, ex2) =>
                if ex2 = false then
                  (h4, Except.error ("service_name " ++ d.service_name ++ " on device_id "
                    ++ d.device_id ++ " not found after POST"))
                else resourceDeviceServiceRead env h4 { d with id := newID }

/-- resourceDeviceServiceUpdate from the source: the version gate consulted
here is resourceDeviceVersionCheck (the device kind gate), then the PUT and
the read chain. -/
def resourceDeviceServiceUpdate (env : ApiEnv) (d : ResourceData) :
    List ApiRequest × Except String ResourceData :=
  match resourceDeviceVersionCheck env.defaultVersionsValid env.bastionAPIVersion with
  | some e => ([], Except.error e)
  | none =>
    let (h1, r) := updateDeviceService env [] d
    match r with
    | Except.error e => (h1, Except.error e)
    | Except.ok _ => resourceDeviceServiceRead env h1 d

/-- resourceDeviceServiceDelete from the source: version gate then DELETE. -/
def resourceDeviceServiceDelete (env : ApiEnv) (d : ResourceData) :
    List ApiRequest × Except String Unit :=
  match resourceDeviceServiceVersionCheck env.defaultVersionsValid env.bastionAPIVersion with
  | some e => ([], Except.error e)
  | none => deleteDeviceService env [] d

/-- resourceDeviceServiceImport from the source: version gate, split of the
composite identifier on the slash separator (exactly two components required),
identity resolution, fetch and fill. -/
def resourceDeviceServiceImport (env : ApiEnv) (d : ResourceData) :
    List ApiRequest × Except String (List ResourceData) :=
  match resourceDeviceServiceVersionCheck env.defaultVersionsValid env.bastionAPIVersion with
  | some e => ([], Except.error e)
  | none =>
    match goSplit d.id '/' with
    | [devID, svcName] =>
      let (h1, r1) := searchResourceDeviceService env [] devID svcName
      match r1 with
      | Except.error e => (h1, Except.error e)
      | Except.ok (newID, ex) =>
        if ex = false then
          (h1, Except.error ("don\x27t find service_name with id " ++ d.id ++
            " (id must be <device_id>/<service_name>)"))
        else
          let (h2, r2) := readDeviceServiceOptions env h1 devID newID
          match r2 with
          | Except.error e => (h2, Except.error e)
          | Except.ok cfg =>
            (h2, Except.ok [{ fillDeviceService d cfg with id := newID, device_id := devID }])
    | _ => ([], Except.error "id must be <device_id>/<service_name>")

/-- Wire record jsonConfigX509 from the source. -/
structure JsonConfigX509 where
  caCertificate : String
  serverPublicKey : String
  serverPrivateKey : String
  enable : Bool
  default : Bool
deriving DecidableEq

/-- The Go zero value of jsonConfigX509. -/
def JsonConfigX509.zero : JsonConfigX509 := ⟨"", "", "", false, false⟩

/-- Model of the Terraform SDK ResourceData for wallix-bastion_config_x509. -/
structure ResourceDataX509 where
  id : String
  ca_certificate : String
  server_public_key : String
  server_private_key : String
  enable : Bool
deriving DecidableEq

/-- One HTTP request issued by an x509 configuration operation. -/
structure X509Request where
  path : String
  method : String
  payload : Option JsonConfigX509
deriving DecidableEq

/-- Result of a pem.Decode call that succeeded (the block and its bytes are
kept abstract). -/
structure PemBlock where
  bytes : String
deriving DecidableEq

/-- Result of an x509.ParseCertificate call; only the subject common name is
consulted by the source. -/
structure Certificate where
  subjectCommonName : String
deriving DecidableEq

/-- The environment an x509 configuration operation runs against: the remote
gateway, the JSON unmarshaller, and abstract pem.Decode and
x509.ParseCertificate primitives (pem.Decode returns none exactly when the
input is not valid PEM, matching its nil return in Go). -/
structure X509ApiEnv where
  api : X509Request → Except String (String × Nat)
  parseConfig : String → Except String JsonConfigX509
  pemDecode : String → Option PemBlock
  parseCertificate : String → Except String Certificate

/-- Outcome of a Go function that can return normally, return an error, or
panic at runtime (a nil-pointer dereference). -/
inductive GoResult (α : Type) where
  | ok : α → GoResult α
  | error : String → GoResult α
  | panic : String → GoResult α
deriving DecidableEq

/-- The single GET request every x509 configuration read issues. -/
def x509GetReq : X509Request := ⟨"/config/x509", "GET", none⟩

/-- readConfigX509Options from the source: 404 yields the zero value without
error, any other non-200 code is a remote error, 200 is unmarshalled. -/
def readConfigX509Options (env : X509ApiEnv) :
    List X509Request × Except String JsonConfigX509 :=
  let log : List X509Request := [x509GetReq]
  match env.api x509GetReq with
  | Except.error e => (log, Except.error e)
  | Except.ok (body, code) =>
    if code = 404 then (log, Except.ok JsonConfigX509.zero)
    else if code ≠ 200 then
      (log, Except.error ("API returned error: " ++ toString code ++
        " with body:\n" ++ body))
    else
      match env.parseConfig body with
      | Except.error e => (log, Except.error ("error unmarshaling JSON: " ++ e))
      | Except.ok result => (log, Except.ok result)

/-- fillConfigX509 from the source: only the enable field is copied back. -/
def fillConfigX509 (d : ResourceDataX509) (jsonData : JsonConfigX509) : ResourceDataX509 :=
  { d with enable := jsonData.enable }

/-- The tail of resourceConfigX509Read after the ca_certificate check: the
server_public_key common-name check and the final fillConfigX509. A non-empty
declared value that pem.Decode rejects is dereferenced anyway in Go (the
decode failure is discarded), which is the nil-pointer panic. -/
def x509ReadServerKeyCheck (env : X509ApiEnv) (d : ResourceDataX509)
    (cfg : JsonConfigX509) (log : List X509Request) :
    List X509Request × GoResult ResourceDataX509 :=
  if d.server_public_key ≠ "" then
    match env.pemDecode d.server_public_key with
    | none =>
      (log, GoResult.panic "runtime error: invalid memory address or nil pointer dereference")
    | some block =>
      match env.parseCertificate block.bytes with
      | Except.error e => (log, GoResult.error e)
      | Except.ok cert =>
        if goContains cfg.serverPublicKey ("/CN=" ++ cert.subjectCommonName) then
          (log, GoResult.ok (fillConfigX509 d cfg))
        else (log, GoResult.ok { d with id := "" })
  else (log, GoResult.ok (fillConfigX509 d cfg))

/-- resourceConfigX509Read from the source: remote read, default-config check,
then for each non-empty declared certificate field a substring check of
"/CN=" plus the declared subject common name against the observed value; a
mismatch clears the tracked identity without any further remote call. -/
def resourceConfigX509Read (env : X509ApiEnv) (d : ResourceDataX509) :
    List X509Request × GoResult ResourceDataX509 :=
  let (log, r) := readConfigX509Options env
  match r with
  | Except.error e => (log, GoResult.error e)
  | Except.ok cfg =>
    if cfg.default then (log, GoResult.ok { d with id := "" })
    else if d.ca_certificate ≠ "" then
      match env.pemDecode d.ca_certificate with
      | none =>
        (log, GoResult.panic "runtime error: invalid memory address or nil pointer dereference")
      | some block =>
        match env.parseCertificate block.bytes with
        | Except.error e => (log, GoResult.error e)
        | Except.ok cert =>
          if goContains cfg.caCertificate ("/CN=" ++ cert.subjectCommonName) then
            x509ReadServerKeyCheck env d cfg log
          else (log, GoResult.ok { d with id := "" })
    else x509ReadServerKeyCheck env d cfg log

/-- resourceConfigX509Import from the source: the Go function ignores the
client argument entirely (so it can issue no request), ignores the supplied
identifier, and sets the static identifier unconditionally. -/
def resourceConfigX509Import (d : ResourceDataX509) :
    List X509Request × Except String (List ResourceDataX509) :=
  ([], Except.ok [{ d with id := "x509Config" }])

/-- A gateway that answers 404 with an empty body to every request. -/
def envC1 : ApiEnv where
  api := fun _ _ => Except.ok ("", 404)
  parseList := fun _ => Except.error "unused"
  parseOne := fun _ => Except.error "unused"
  parseDevice := fun _ => Except.error "unused"
  defaultVersionsValid := ["3.12"]
  bastionAPIVersion := "3.12"

/-- A tracked device service used as concrete input. -/
def dC1 : ResourceData :=
  ⟨"svc1", "dev1", "svcA", "pol", 22, "SSH", [], [], false, false, false, false⟩

/-- Two distinct remote records sharing the same natural key. -/
def resultC2a : JsonDeviceService := ⟨22, "id1", "pol", "SSH", "svcA", none, none⟩

/-- Second of the two colliding remote records. -/
def resultC2b : JsonDeviceService := ⟨23, "id2", "pol", "SSH", "svcA", none, none⟩

/-- A gateway whose listing endpoint returns two matches for the key. -/
def envC2 : ApiEnv where
  api := fun _ _ => Except.ok ("twoResults", 200)
  parseList := fun _ => Except.ok [resultC2a, resultC2b]
  parseOne := fun _ => Except.error "unused"
  parseDevice := fun _ => Except.error "unused"
  defaultVersionsValid := ["3.12"]
  bastionAPIVersion := "3.12"

/-- A declared service where the SDK reports no field changed. -/
def dC4 : ResourceData :=
  ⟨"svc1", "dev1", "svcA", "pol", 22, "SSH", [], ["SSH_SHELL_SESSION"],
   false, false, false, false⟩

/-- The wire payload prepareDeviceServiceJSON builds for dC4 on update. -/
def jC4 : JsonDeviceService := ⟨22, "", "pol", "", "", none, some ["SSH_SHELL_SESSION"]⟩

/-- A gateway for the create flow: the parent device exists and the listing
finds no existing service. -/
def envC3 : ApiEnv where
  api := fun _ req =>
    if req = deviceReq "dev1" then Except.ok ("devBody", 200)
    else Except.ok ("listBody", 200)
  parseList := fun _ => Except.ok []
  parseOne := fun _ => Except.error "unused"
  parseDevice := fun _ => Except.ok ⟨"devOpaque"⟩
  defaultVersionsValid := ["3.12"]
  bastionAPIVersion := "3.12"

/-- A declared service under protocol TELNET with a non-empty sub-protocol set. -/
def dC3 : ResourceData :=
  ⟨"", "dev1", "svcA", "pol", 23, "TELNET", [], ["SSH_SHELL_SESSION"],
   false, false, false, false⟩

/-- A declared service under protocol SSH with an RDP-only token. -/
def dC3ssh : ResourceData :=
  ⟨"", "dev1", "svcA", "pol", 22, "SSH", [], ["RDP_PRINTER"],
   false, false, false, false⟩

/-- A declared service under protocol RDP with an SSH-only token. -/
def dC3rdp : ResourceData :=
  ⟨"", "dev1", "svcA", "pol", 3389, "RDP", [], ["SSH_X11"],
   false, false, false, false⟩

/-- A declared SSH service with an empty sub-protocol set, used for create. -/
def dC6 : ResourceData :=
  ⟨"", "dev1", "svcA", "pol", 22, "SSH", [], [], false, false, false, false⟩

/-- The wire payload the create flow sends for dC6. -/
def jC6 : JsonDeviceService := ⟨22, "", "pol", "SSH", "svcA", none, none⟩

/-- The single remote record matching the natural key of dC6. -/
def svcC6 : JsonDeviceService := ⟨22, "opq1", "pol", "SSH", "svcA", none, none⟩

/-- The record the final by-ID read returns for svcC6. -/
def cfgC6 : JsonDeviceService := ⟨22, "opq1", "pol", "SSH", "svcA", none, none⟩

/-- A gateway where the natural key is already taken before the create. -/
def envC6a : ApiEnv where
  api := fun _ req =>
    if req = deviceReq "dev1" then Except.ok ("dev", 200)
    else Except.ok ("one", 200)
  parseList := fun b => if b = "one" then Except.ok [svcC6] else Except.ok []
  parseOne := fun _ => Except.ok cfgC6
  parseDevice := fun _ => Except.ok ⟨"did"⟩
  defaultVersionsValid := ["3.12"]
  bastionAPIVersion := "3.12"

/-- A gateway where the listing never sees the created service. -/
def envC6c : ApiEnv where
  api := fun _ req =>
    if req = deviceReq "dev1" then Except.ok ("dev", 200)
    else if req = addReq "dev1" jC6 then Except.ok ("posted", 200)
    else Except.ok ("empty", 200)
  parseList := fun b => if b = "one" then Except.ok [svcC6] else Except.ok []
  parseOne := fun _ => Except.ok cfgC6
  parseDevice := fun _ => Except.ok ⟨"did"⟩
  defaultVersionsValid := ["3.12"]
  bastionAPIVersion := "3.12"

/-- A gateway where the service appears in the listing only after the POST. -/
def envC6b : ApiEnv where
  api := fun hist req =>
    if req = deviceReq "dev1" then Except.ok ("dev", 200)
    else if req = serviceReq "dev1" "opq1" then Except.ok ("svc", 200)
    else if req = addReq "dev1" jC6 then Except.ok ("posted", 200)
    else if hist.length ≤ 1 then Except.ok ("empty", 200)
    else Except.ok ("one", 200)
  parseList := fun b => if b = "one" then Except.ok [svcC6] else Except.ok []
  parseOne := fun _ => Except.ok cfgC6
  parseDevice := fun _ => Except.ok ⟨"did"⟩
  defaultVersionsValid := ["3.12"]
  bastionAPIVersion := "3.12"

/-- The remote record the import of dev123/svcA resolves to. -/
def svcC7 : JsonDeviceService := ⟨22, "opq7", "pol", "SSH", "svcA", none, none⟩

/-- The record the by-ID fetch returns during that import. -/
def cfgC7 : JsonDeviceService := ⟨22, "opq7", "pol", "SSH", "svcA", none, none⟩

/-- A record to import, keyed by the composite identifier. -/
def dC7 : ResourceData :=
  ⟨"dev123/svcA", "x", "y", "pol", 1, "SSH", [], [], false, false, false, false⟩

/-- A composite identifier with no separator. -/
def dC7bad1 : ResourceData :=
  ⟨"dev123", "x", "y", "pol", 1, "SSH", [], [], false, false, false, false⟩

/-- A composite identifier with two separators. -/
def dC7bad2 : ResourceData :=
  ⟨"dev123/svcA/extra", "x", "y", "pol", 1, "SSH", [], [], false, false, false, false⟩

/-- A gateway where the imported key resolves to exactly one record. -/
def envC7 : ApiEnv where
  api := fun _ req =>
    if req = serviceReq "dev123" "opq7" then Except.ok ("svc", 200)
    else Except.ok ("one", 200)
  parseList := fun b => if b = "one" then Except.ok [svcC7] else Except.ok []
  parseOne := fun _ => Except.ok cfgC7
  parseDevice := fun _ => Except.error "unused"
  defaultVersionsValid := ["3.12"]
  bastionAPIVersion := "3.12"

/-- A gateway where the imported key resolves to nothing. -/
def envC7n : ApiEnv where
  api := fun _ _ => Except.ok ("empty", 200)
  parseList := fun _ => Except.ok []
  parseOne := fun _ => Except.error "unused"
  parseDevice := fun _ => Except.error "unused"
  defaultVersionsValid := ["3.12"]
  bastionAPIVersion := "3.12"

/-- A client whose connected remote reports a version outside the supported
list; its gateway would fail any request, so a passing operation would be
visible in the log. -/
def envC8 : ApiEnv where
  api := fun _ _ => Except.error "transport unreachable"
  parseList := fun _ => Except.error "unused"
  parseOne := fun _ => Except.error "unused"
  parseDevice := fun _ => Except.error "unused"
  defaultVersionsValid := ["3.12"]
  bastionAPIVersion := "3.10"

/-- A tracked device service operated on under the unsupported version. -/
def dC8 : ResourceData :=
  ⟨"svc1", "dev1", "svcA", "pol", 22, "SSH", [], [], false, false, false, false⟩

/-- The observed remote x509 configuration (a derived subject line). -/
def cfgC5 : JsonConfigX509 := ⟨"subject=/CN=example.com", "", "", true, false⟩

/-- A gateway for the x509 read whose decode and parse primitives extract
example.com from the declared CApem value and other.com from anything else. -/
def envC5 : X509ApiEnv where
  api := fun _ => Except.ok ("cfg", 200)
  parseConfig := fun _ => Except.ok cfgC5
  pemDecode := fun s => if s = "" then none else some ⟨s⟩
  parseCertificate := fun b =>
    if b = "CApem" then Except.ok ⟨"example.com"⟩ else Except.ok ⟨"other.com"⟩

/-- Declared configuration whose certificate common name matches. -/
def dC5a : ResourceDataX509 := ⟨"x509Config", "CApem", "", "priv", false⟩

/-- Declared configuration whose certificate common name does not match. -/
def dC5b : ResourceDataX509 := ⟨"x509Config", "CApemOther", "", "priv", false⟩

/-- Declared configuration with an empty certificate field. -/
def dC5c : ResourceDataX509 := ⟨"x509Config", "", "", "priv", false⟩

/-- A gateway whose pem.Decode rejects every input. -/
def envC9 : X509ApiEnv where
  api := fun _ => Except.ok ("cfg", 200)
  parseConfig := fun _ => Except.ok cfgC5
  pemDecode := fun _ => none
  parseCertificate := fun _ => Except.error "unused"

/-- Declared configuration with a non-PEM ca_certificate. -/
def dC9a : ResourceDataX509 := ⟨"x509Config", "not pem", "", "priv", false⟩

/-- Declared configuration with a non-PEM server_public_key. -/
def dC9b : ResourceDataX509 := ⟨"x509Config", "", "not pem", "priv", false⟩

/-- C1: the delete path does not map 404 to success: with the remote answering
404 (already absent), resourceDeviceServiceDelete returns a remote error, while
the read path on the same answer clears the tracked identity without error. -/
theorem C1_counterexample :
    (resourceDeviceServiceDelete envC1 dC1).2 =
      Except.error "api doesn\x27t return OK or NoContent: 404 with body:\n" ∧
    (resourceDeviceServiceRead envC1 [] dC1).2 = Except.ok { dC1 with id := "" } :=
  ⟨rfl, rfl⟩

/-- C1 (amended): when the remote answers 404, the read operation clears the
tracked identity and reports success, but the delete operation returns a
remote error carrying the 404 status rather than succeeding. -/
theorem C1_amended (env : ApiEnv) (d : ResourceData) (rbody dbody : String)
    (hver : env.bastionAPIVersion ∈ env.defaultVersionsValid)
    (hread : env.api [] (serviceReq d.device_id d.id) = Except.ok (rbody, 404))
    (hdel : env.api [] (deleteReq d.device_id d.id) = Except.ok (dbody, 404)) :
    (resourceDeviceServiceRead env [] d).2 = Except.ok { d with id := "" } ∧
    (resourceDeviceServiceDelete env d).2 =
      Except.error ("api doesn\x27t return OK or NoContent: 404 with body:\n" ++ dbody) := by
  constructor
  · unfold resourceDeviceServiceRead resourceDeviceServiceVersionCheck
      readDeviceServiceOptions newRequest
    simp [hver, hread, JsonDeviceService.zero]
  · unfold resourceDeviceServiceDelete resourceDeviceServiceVersionCheck
      deleteDeviceService newRequest
    simp [hver, hdel]
    rfl

/-- C1 witness at the concrete 404 environment. -/
theorem C1_amended_witness :
    (resourceDeviceServiceRead envC1 [] dC1).2 = Except.ok { dC1 with id := "" } ∧
    (resourceDeviceServiceDelete envC1 dC1).2 =
      Except.error ("api doesn\x27t return OK or NoContent: 404 with body:\n" ++ "") :=
  C1_amended envC1 dC1 "" "" (by decide) rfl rfl

/-- C2: when the collection returns two matches for the uniqueness-scoped key,
searchResourceDeviceService reports not-found without any error, rather than
surfacing a distinct data-integrity (ambiguous match) error. -/
theorem C2_counterexample :
    (searchResourceDeviceService envC2 [] "dev1" "svcA").2 = Except.ok ("", false) :=
  rfl

/-- C2 (amended): an identity-resolution query whose listing succeeds with any
number of matches other than exactly one silently reports not-found (empty
identifier, found false, no error); more than one match is not distinguished
from zero matches and no data-integrity error is surfaced. -/
theorem C2_amended (env : ApiEnv) (hist : List ApiRequest) (devID svc body : String)
    (rs : List JsonDeviceService)
    (hapi : env.api hist (searchReq devID svc) = Except.ok (body, 200))
    (hparse : env.parseList body = Except.ok rs)
    (hlen : rs.length ≠ 1) :
    searchResourceDeviceService env hist devID svc =
      (hist ++ [searchReq devID svc], Except.ok ("", false)) := by
  unfold searchResourceDeviceService newRequest
  simp [hapi, hparse, hlen]

/-- C2 witness at the two-match environment. -/
theorem C2_amended_witness :
    searchResourceDeviceService envC2 [] "dev1" "svcA" =
      ([searchReq "dev1" "svcA"], Except.ok ("", false)) :=
  C2_amended envC2 [] "dev1" "svcA" "twoResults" [resultC2a, resultC2b] rfl rfl (by decide)

/-- C4: on an update where the operator changed nothing, the wire payload still
carries connection_policy, port and the subprotocols set, so the payload is not
restricted to the fields the operator actually changed. -/
theorem C4_counterexample :
    prepareDeviceServiceJSON dC4 false = Except.ok jC4 ∧
    dC4.hasChangeConnectionPolicy = false ∧ dC4.hasChangePort = false ∧
    dC4.hasChangeSubprotocols = false ∧
    "connection_policy" ∈ wireFields jC4 ∧ "port" ∈ wireFields jC4 ∧
    "subprotocols" ∈ wireFields jC4 :=
  ⟨rfl, rfl, rfl, rfl, by decide, by decide, by decide⟩

/-- C4 (amended): the update payload never carries the immutable protocol and
service_name fields, and carries global_domains exactly when the SDK reports it
changed; but connection_policy and port are always sent, and subprotocols is
sent whenever the declared set is non-empty, whether or not anything changed. -/
theorem C4_amended (d : ResourceData) (j : JsonDeviceService)
    (h : prepareDeviceServiceJSON d false = Except.ok j) :
    "protocol" ∉ wireFields j ∧ "service_name" ∉ wireFields j ∧
    ("global_domains" ∈ wireFields j ↔ d.hasChangeGlobalDomains = true) ∧
    "connection_policy" ∈ wireFields j ∧ "port" ∈ wireFields j ∧
    ("subprotocols" ∈ wireFields j ↔ d.subprotocols ≠ []) := by
  unfold prepareDeviceServiceJSON at h
  simp only [Bool.false_eq_true, if_false] at h
  by_cases hs : d.subprotocols.length > 0
  · rw [if_pos hs] at h
    rcases hl : subProtocolsLoop d.protocol d.subprotocols with e | subs <;> rw [hl] at h
    · cases h
    · cases h
      have hne : d.subprotocols ≠ [] := by
        intro hnil
        rw [hnil] at hs
        simp at hs
      by_cases hg : d.hasChangeGlobalDomains = true
      · simp [wireFields, JsonDeviceService.zero, if_pos hg, hg, hne]
      · simp [wireFields, JsonDeviceService.zero, if_neg hg, hg, hne]
  · rw [if_neg hs] at h
    cases h
    have hnil : d.subprotocols = [] := by
      by_contra hne
      exact hs (List.length_pos.mpr hne)
    by_cases hg : d.hasChangeGlobalDomains = true
    · simp [wireFields, JsonDeviceService.zero, if_pos hg, hg, hnil]
    · simp [wireFields, JsonDeviceService.zero, if_neg hg, hg, hnil]

/-- C4 witness at the unchanged concrete input. -/
theorem C4_amended_witness :
    "protocol" ∉ wireFields jC4 ∧ "service_name" ∉ wireFields jC4 ∧
    ("global_domains" ∈ wireFields jC4 ↔ dC4.hasChangeGlobalDomains = true) ∧
    "connection_policy" ∈ wireFields jC4 ∧ "port" ∈ wireFields jC4 ∧
    ("subprotocols" ∈ wireFields jC4 ↔ dC4.subprotocols ≠ []) :=
  C4_amended dC4 jC4 rfl

/-- Under protocol SSH, a sub-protocol set holding a token outside the SSH
allow-list makes the validation loop fail, and the error message names one of
the offending tokens together with the SSH protocol. -/
theorem subProtocolsLoopErrSSH (l : List String)
    (h : ∃ t ∈ l, sshSubProtocolsValid.contains t = false) :
    ∃ t ∈ l, sshSubProtocolsValid.contains t = false ∧
      subProtocolsLoop "SSH" l =
        Except.error ("subprotocols " ++ t ++ " not valid for SSH service") := by
  induction l with
  | nil => simp at h
  | cons v rest ih =>
    by_cases hv : sshSubProtocolsValid.contains v = true
    · have hrest : ∃ t ∈ rest, sshSubProtocolsValid.contains t = false := by
        obtain ⟨t, ht, hbad⟩ := h
        rcases List.mem_cons.mp ht with heq | hm
        · subst heq
          rw [hv] at hbad
          cases hbad
        · exact ⟨t, hm, hbad⟩
      obtain ⟨t, htm, hbad, herr⟩ := ih hrest
      refine ⟨t, List.mem_cons_of_mem _ htm, hbad, ?_⟩
      simp only [subProtocolsLoop, hv, if_true, herr]
    · have hv' : sshSubProtocolsValid.contains v = false := by
        cases hcv : sshSubProtocolsValid.contains v
        · rfl
        · exact absurd hcv hv
      refine ⟨v, List.mem_cons_self v rest, hv', ?_⟩
      simp only [subProtocolsLoop, hv', Bool.false_eq_true, if_false]
      simp

/-- Under protocol RDP, the symmetric statement for the RDP allow-list. -/
theorem subProtocolsLoopErrRDP (l : List String)
    (h : ∃ t ∈ l, rdpSubProtocolsValid.contains t = false) :
    ∃ t ∈ l, rdpSubProtocolsValid.contains t = false ∧
      subProtocolsLoop "RDP" l =
        Except.error ("subprotocols " ++ t ++ " not valid for RDP service") := by
  induction l with
  | nil => simp at h
  | cons v rest ih =>
    by_cases hv : rdpSubProtocolsValid.contains v = true
    · have hrest : ∃ t ∈ rest, rdpSubProtocolsValid.contains t = false := by
        obtain ⟨t, ht, hbad⟩ := h
        rcases List.mem_cons.mp ht with heq | hm
        · subst heq
          rw [hv] at hbad
          cases hbad
        · exact ⟨t, hm, hbad⟩
      obtain ⟨t, htm, hbad, herr⟩ := ih hrest
      refine ⟨t, List.mem_cons_of_mem _ htm, hbad, ?_⟩
      simp only [subProtocolsLoop, hv, if_true, herr]
      simp
    · have hv' : rdpSubProtocolsValid.contains v = false := by
        cases hcv : rdpSubProtocolsValid.contains v
        · rfl
        · exact absurd hcv hv
      refine ⟨v, List.mem_cons_self v rest, hv', ?_⟩
      simp only [subProtocolsLoop, hv', Bool.false_eq_true, if_false]
      simp

/-- Under a protocol with no recognized allow-list, any non-empty sub-protocol
set makes the validation loop fail naming the protocol alone. -/
theorem subProtocolsLoopErrOther (proto : String) (l : List String)
    (hssh : proto ≠ "SSH") (hrdp : proto ≠ "RDP") (hne : l ≠ []) :
    subProtocolsLoop proto l =
      Except.error ("subprotocols need to not set for " ++ proto ++ " service") := by
  match l, hne with
  | v :: rest, _ =>
    simp only [subProtocolsLoop, if_neg hssh, if_neg hrdp]

/-- readDeviceOptions always logs exactly one GET request for the device. -/
theorem readDeviceOptions_log (env : ApiEnv) (hist : List ApiRequest) (deviceID : String) :
    (readDeviceOptions env hist deviceID).1 = hist ++ [deviceReq deviceID] := by
  simp only [readDeviceOptions, newRequest]
  repeat' split
  all_goals rfl

/-- searchResourceDeviceService always logs exactly one GET listing request. -/
theorem searchResourceDeviceService_log (env : ApiEnv) (hist : List ApiRequest)
    (deviceID serviceName : String) :
    (searchResourceDeviceService env hist deviceID serviceName).1 =
      hist ++ [searchReq deviceID serviceName] := by
  simp only [searchResourceDeviceService, newRequest]
  repeat' split
  all_goals rfl

/-- A translation failure aborts addDeviceService before any request. -/
theorem addDeviceService_prepErr (env : ApiEnv) (hist : List ApiRequest)
    (d : ResourceData) (e : String)
    (hprep : prepareDeviceServiceJSON d true = Except.error e) :
    addDeviceService env hist d = (hist, Except.error e) := by
  unfold addDeviceService
  rw [hprep]

/-- When translation fails, the create flow never issues the create call: every
request in its log is one of the preceding GET lookups. -/
theorem createLogOfPrepErr (env : ApiEnv) (d : ResourceData) (e : String)
    (hprep : prepareDeviceServiceJSON d true = Except.error e) :
    ∀ r ∈ (resourceDeviceServiceCreate env d).1, r.method = "GET" := by
  have hadd : ∀ hist, addDeviceService env hist d = (hist, Except.error e) :=
    fun hist => addDeviceService_prepErr env hist d e hprep
  unfold resourceDeviceServiceCreate
  split
  · simp
  · split
    next h1 r1 heq1 =>
    have hh1 : h1 = [deviceReq d.device_id] := by
      have hl := readDeviceOptions_log env [] d.device_id
      rw [heq1] at hl
      simpa using hl
    subst hh1
    split
    · simp [deviceReq]
    · split
      · simp [deviceReq]
      · split
        next h2 r2 heq2 =>
        have hh2 : h2 = [deviceReq d.device_id, searchReq d.device_id d.service_name] := by
          have hl := searchResourceDeviceService_log env [deviceReq d.device_id]
            d.device_id d.service_name
          rw [heq2] at hl
          simpa using hl
        subst hh2
        split
        · simp [deviceReq, searchReq]
        · split
          · simp [deviceReq, searchReq]
          · rw [hadd]
            simp [deviceReq, searchReq]

/-- A translation failure on a non-empty sub-protocol set surfaces the loop
error from prepareDeviceServiceJSON unchanged. -/
theorem prepareDeviceServiceJSON_loopErr (d : ResourceData) (b : Bool) (e : String)
    (hne : d.subprotocols ≠ [])
    (h : subProtocolsLoop d.protocol d.subprotocols = Except.error e) :
    prepareDeviceServiceJSON d b = Except.error e := by
  unfold prepareDeviceServiceJSON
  rw [if_pos (List.length_pos.mpr hne), h]

/-- C3: creating a TELNET service with a non-empty sub-protocol set fails only
after two network calls were already issued (the device read and the listing
query), and the configuration error names the protocol but not the offending
token, contradicting both the before-any-network-call and the token-naming
parts of the claim. -/
theorem C3_counterexample :
    (resourceDeviceServiceCreate envC3 dC3).2 =
      Except.error "subprotocols need to not set for TELNET service" ∧
    (resourceDeviceServiceCreate envC3 dC3).1 =
      [deviceReq "dev1", searchReq "dev1" "svcA"] ∧
    goContains "subprotocols need to not set for TELNET service" "SSH_SHELL_SESSION"
      = false :=
  ⟨rfl, rfl, by decide⟩

/-- C3 (amended): an SSH service with a token outside the SSH allow-list is
rejected with an error naming an offending token and SSH; symmetrically for
RDP; any other protocol with a non-empty sub-protocol set is rejected with an
error naming the protocol only; and when translation fails the create flow
issues no create (POST) request, only GET lookups. -/
theorem C3_amended :
    (∀ (d : ResourceData) (b : Bool), d.protocol = "SSH" →
      (∃ t ∈ d.subprotocols, sshSubProtocolsValid.contains t = false) →
      ∃ t ∈ d.subprotocols, sshSubProtocolsValid.contains t = false ∧
        prepareDeviceServiceJSON d b =
          Except.error ("subprotocols " ++ t ++ " not valid for SSH service")) ∧
    (∀ (d : ResourceData) (b : Bool), d.protocol = "RDP" →
      (∃ t ∈ d.subprotocols, rdpSubProtocolsValid.contains t = false) →
      ∃ t ∈ d.subprotocols, rdpSubProtocolsValid.contains t = false ∧
        prepareDeviceServiceJSON d b =
          Except.error ("subprotocols " ++ t ++ " not valid for RDP service")) ∧
    (∀ (d : ResourceData) (b : Bool), d.protocol ≠ "SSH" → d.protocol ≠ "RDP" →
      d.subprotocols ≠ [] →
      prepareDeviceServiceJSON d b =
        Except.error ("subprotocols need to not set for " ++ d.protocol ++ " service")) ∧
    (∀ (env : ApiEnv) (d : ResourceData) (e : String),
      prepareDeviceServiceJSON d true = Except.error e →
      ∀ r ∈ (resourceDeviceServiceCreate env d).1, r.method = "GET") := by
  refine ⟨?_, ?_, ?_, ?_⟩
  · intro d b hp hex
    have hne : d.subprotocols ≠ [] := by
      obtain ⟨t, ht, _⟩ := hex
      exact List.ne_nil_of_mem ht
    obtain ⟨t, htm, hbad, herr⟩ := subProtocolsLoopErrSSH d.subprotocols hex
    refine ⟨t, htm, hbad, prepareDeviceServiceJSON_loopErr d b _ hne ?_⟩
    rw [hp]
    exact herr
  · intro d b hp hex
    have hne : d.subprotocols ≠ [] := by
      obtain ⟨t, ht, _⟩ := hex
      exact List.ne_nil_of_mem ht
    obtain ⟨t, htm, hbad, herr⟩ := subProtocolsLoopErrRDP d.subprotocols hex
    refine ⟨t, htm, hbad, prepareDeviceServiceJSON_loopErr d b _ hne ?_⟩
    rw [hp]
    exact herr
  · intro d b hssh hrdp hne
    exact prepareDeviceServiceJSON_loopErr d b _ hne
      (subProtocolsLoopErrOther d.protocol d.subprotocols hssh hrdp hne)
  · exact fun env d e h => createLogOfPrepErr env d e h

/-- C3 witness at the three concrete declared services and the concrete
gateway. -/
theorem C3_amended_witness :
    (∃ t ∈ dC3ssh.subprotocols, sshSubProtocolsValid.contains t = false ∧
      prepareDeviceServiceJSON dC3ssh true =
        Except.error ("subprotocols " ++ t ++ " not valid for SSH service")) ∧
    (∃ t ∈ dC3rdp.subprotocols, rdpSubProtocolsValid.contains t = false ∧
      prepareDeviceServiceJSON dC3rdp true =
        Except.error ("subprotocols " ++ t ++ " not valid for RDP service")) ∧
    prepareDeviceServiceJSON dC3 true =
      Except.error ("subprotocols need to not set for " ++ dC3.protocol ++ " service") ∧
    (∀ r ∈ (resourceDeviceServiceCreate envC3 dC3).1, r.method = "GET") :=
  ⟨C3_amended.1 dC3ssh true rfl ⟨"RDP_PRINTER", by decide, by decide⟩,
   C3_amended.2.1 dC3rdp true rfl ⟨"SSH_X11", by decide, by decide⟩,
   C3_amended.2.2.1 dC3 true (by decide) (by decide) (by decide),
   C3_amended.2.2.2 envC3 dC3 "subprotocols need to not set for TELNET service" rfl⟩

/-- The version gate passes when the reported version is in the supported list. -/
theorem versionCheckOk (valid : List String) (v : String) (h : v ∈ valid) :
    resourceDeviceServiceVersionCheck valid v = none := by
  unfold resourceDeviceServiceVersionCheck
  simp [h]

/-- readDeviceOptions under a 200 response that unmarshals. -/
theorem readDeviceOptions_ok (env : ApiEnv) (hist : List ApiRequest)
    (devID b : String) (dev : JsonDevice)
    (hapi : env.api hist (deviceReq devID) = Except.ok (b, 200))
    (hparse : env.parseDevice b = Except.ok dev) :
    readDeviceOptions env hist devID = (hist ++ [deviceReq devID], Except.ok dev) := by
  unfold readDeviceOptions newRequest
  rw [hapi]
  simp [hparse]

/-- searchResourceDeviceService under a 200 response with exactly one match. -/
theorem searchFound (env : ApiEnv) (hist : List ApiRequest) (devID svc b : String)
    (rs : List JsonDeviceService)
    (hapi : env.api hist (searchReq devID svc) = Except.ok (b, 200))
    (hparse : env.parseList b = Except.ok rs) (hlen : rs.length = 1) :
    searchResourceDeviceService env hist devID svc =
      (hist ++ [searchReq devID svc],
       Except.ok ((rs.headD JsonDeviceService.zero).id, true)) := by
  unfold searchResourceDeviceService newRequest
  rw [hapi]
  simp [hparse, hlen]

/-- searchResourceDeviceService under a 200 response with a match count other
than one. -/
theorem searchNotFound (env : ApiEnv) (hist : List ApiRequest) (devID svc b : String)
    (rs : List JsonDeviceService)
    (hapi : env.api hist (searchReq devID svc) = Except.ok (b, 200))
    (hparse : env.parseList b = Except.ok rs) (hlen : rs.length ≠ 1) :
    searchResourceDeviceService env hist devID svc =
      (hist ++ [searchReq devID svc], Except.ok ("", false)) := by
  unfold searchResourceDeviceService newRequest
  rw [hapi]
  simp [hparse, hlen]

/-- addDeviceService under successful translation and a 200 response. -/
theorem addDeviceService_ok (env : ApiEnv) (hist : List ApiRequest)
    (d : ResourceData) (j : JsonDeviceService) (b : String)
    (hprep : prepareDeviceServiceJSON d true = Except.ok j)
    (hapi : env.api hist (addReq d.device_id j) = Except.ok (b, 200)) :
    addDeviceService env hist d = (hist ++ [addReq d.device_id j], Except.ok ()) := by
  unfold addDeviceService newRequest
  rw [hprep]
  simp [hapi]

/-- readDeviceServiceOptions under a 200 response that unmarshals. -/
theorem readDeviceServiceOptions_ok (env : ApiEnv) (hist : List ApiRequest)
    (devID svcID b : String) (cfg : JsonDeviceService)
    (hapi : env.api hist (serviceReq devID svcID) = Except.ok (b, 200))
    (hparse : env.parseOne b = Except.ok cfg) :
    readDeviceServiceOptions env hist devID svcID =
      (hist ++ [serviceReq devID svcID], Except.ok cfg) := by
  unfold readDeviceServiceOptions newRequest
  rw [hapi]
  simp [hparse]

/-- readDeviceServiceOptions under a 404 response. -/
theorem readDeviceServiceOptions_404 (env : ApiEnv) (hist : List ApiRequest)
    (devID svcID b : String)
    (hapi : env.api hist (serviceReq devID svcID) = Except.ok (b, 404)) :
    readDeviceServiceOptions env hist devID svcID =
      (hist ++ [serviceReq devID svcID], Except.ok JsonDeviceService.zero) := by
  unfold readDeviceServiceOptions newRequest
  rw [hapi]
  simp

/-- C6: in the create flow with a passing version gate and an existing parent
device (a) a pre-create identity query finding the natural key already present
fails the create with the already-exists error before any POST; (b) after a
successful POST, a post-create identity query with zero matches produces the
fatal not-found-after-POST error; (c) a post-create query with exactly one
match makes that match its tracked identifier, which the final read keeps. -/
theorem C6_theorem (env : ApiEnv) (d : ResourceData)
    (hver : env.bastionAPIVersion ∈ env.defaultVersionsValid)
    (b1 : String) (dev : JsonDevice)
    (hdev : env.api [] (deviceReq d.device_id) = Except.ok (b1, 200))
    (hdevp : env.parseDevice b1 = Except.ok dev)
    (hdevid : dev.id ≠ "") :
    (∀ (b2 : String) (rs : List JsonDeviceService),
      env.api [deviceReq d.device_id] (searchReq d.device_id d.service_name) =
        Except.ok (b2, 200) →
      env.parseList b2 = Except.ok rs → rs.length = 1 →
      resourceDeviceServiceCreate env d =
        ([deviceReq d.device_id, searchReq d.device_id d.service_name],
         Except.error ("service_name " ++ d.service_name ++ " on device_id " ++
           d.device_id ++ " already exists"))) ∧
    (∀ (b2 b3 b4 : String) (j : JsonDeviceService),
      env.api [deviceReq d.device_id] (searchReq d.device_id d.service_name) =
        Except.ok (b2, 200) →
      env.parseList b2 = Except.ok [] →
      prepareDeviceServiceJSON d true = Except.ok j →
      env.api [deviceReq d.device_id, searchReq d.device_id d.service_name]
        (addReq d.device_id j) = Except.ok (b3, 200) →
      env.api [deviceReq d.device_id, searchReq d.device_id d.service_name,
        addReq d.device_id j] (searchReq d.device_id d.service_name) =
        Except.ok (b4, 200) →
      ((env.parseList b4 = Except.ok [] →
        resourceDeviceServiceCreate env d =
          ([deviceReq d.device_id, searchReq d.device_id d.service_name,
            addReq d.device_id j, searchReq d.device_id d.service_name],
           Except.error ("service_name " ++ d.service_name ++ " on device_id " ++
             d.device_id ++ " not found after POST"))) ∧
       (∀ (svc cfg : JsonDeviceService) (b5 : String),
        env.parseList b4 = Except.ok [svc] →
        env.api [deviceReq d.device_id, searchReq d.device_id d.service_name,
          addReq d.device_id j, searchReq d.device_id d.service_name]
          (serviceReq d.device_id svc.id) = Except.ok (b5, 200) →
        env.parseOne b5 = Except.ok cfg → cfg.id ≠ "" →
        (resourceDeviceServiceCreate env d).2 =
          Except.ok (fillDeviceService { d with id := svc.id } cfg) ∧
        (fillDeviceService { d with id := svc.id } cfg).id = svc.id))) := by
  constructor
  · intro b2 rs hs hp hl
    unfold resourceDeviceServiceCreate
    rw [versionCheckOk _ _ hver]
    simp only [List.nil_append,
      readDeviceOptions_ok env [] d.device_id b1 dev hdev hdevp,
      searchFound env [deviceReq d.device_id] d.device_id d.service_name b2 rs hs hp hl]
    simp [hdevid]
  · intro b2 b3 b4 j hs1 hp1 hprep hadd hs2
    constructor
    · intro hp2
      unfold resourceDeviceServiceCreate
      rw [versionCheckOk _ _ hver]
      simp [hdevid,
        readDeviceOptions_ok env [] d.device_id b1 dev hdev hdevp,
        searchNotFound env [deviceReq d.device_id] d.device_id d.service_name b2 []
          hs1 hp1 (by simp),
        addDeviceService_ok env [deviceReq d.device_id,
          searchReq d.device_id d.service_name] d j b3 hprep hadd,
        searchNotFound env [deviceReq d.device_id, searchReq d.device_id d.service_name,
          addReq d.device_id j] d.device_id d.service_name b4 [] hs2 hp2 (by simp)]
    · intro svc cfg b5 hp2 hsvc hcfg hcfgid
      unfold resourceDeviceServiceCreate
      rw [versionCheckOk _ _ hver]
      simp [hdevid, hcfgid, resourceDeviceServiceRead, resourceDeviceServiceVersionCheck,
        hver, fillDeviceService,
        readDeviceOptions_ok env [] d.device_id b1 dev hdev hdevp,
        searchNotFound env [deviceReq d.device_id] d.device_id d.service_name b2 []
          hs1 hp1 (by simp),
        addDeviceService_ok env [deviceReq d.device_id,
          searchReq d.device_id d.service_name] d j b3 hprep hadd,
        searchFound env [deviceReq d.device_id, searchReq d.device_id d.service_name,
          addReq d.device_id j] d.device_id d.service_name b4 [svc] hs2 hp2 (by simp),
        readDeviceServiceOptions_ok env [deviceReq d.device_id,
          searchReq d.device_id d.service_name, addReq d.device_id j,
          searchReq d.device_id d.service_name] d.device_id svc.id b5 cfg hsvc hcfg]

/-- C6 witness: the three create outcomes at concrete gateways. -/
theorem C6_theorem_witness :
    resourceDeviceServiceCreate envC6a dC6 =
      ([deviceReq dC6.device_id, searchReq dC6.device_id dC6.service_name],
       Except.error ("service_name " ++ dC6.service_name ++ " on device_id " ++
         dC6.device_id ++ " already exists")) ∧
    resourceDeviceServiceCreate envC6c dC6 =
      ([deviceReq dC6.device_id, searchReq dC6.device_id dC6.service_name,
        addReq dC6.device_id jC6, searchReq dC6.device_id dC6.service_name],
       Except.error ("service_name " ++ dC6.service_name ++ " on device_id " ++
         dC6.device_id ++ " not found after POST")) ∧
    (resourceDeviceServiceCreate envC6b dC6).2 =
      Except.ok (fillDeviceService { dC6 with id := svcC6.id } cfgC6) ∧
    (fillDeviceService { dC6 with id := svcC6.id } cfgC6).id = svcC6.id :=
  ⟨(C6_theorem envC6a dC6 (by decide) "dev" ⟨"did"⟩ rfl rfl (by decide)).1
      "one" [svcC6] rfl rfl (by decide),
   ((C6_theorem envC6c dC6 (by decide) "dev" ⟨"did"⟩ rfl rfl (by decide)).2
      "empty" "posted" "empty" jC6 rfl rfl rfl rfl rfl).1 rfl,
   ((C6_theorem envC6b dC6 (by decide) "dev" ⟨"did"⟩ rfl rfl (by decide)).2
      "empty" "posted" "one" jC6 rfl rfl rfl rfl rfl).2 svcC6 cfgC6 "svc"
      rfl rfl rfl (by decide)⟩

/-- C7: importing a composite identifier: a well-formed "dev123/svcA" resolves
to parent dev123 and natural key svcA (the identity query targets that key and
a successful resolution fills and re-keys the record); an identifier that does
not split into exactly two components fails with the configuration error
naming the expected format; an identity resolution that finds no match fails
with the explanatory error naming the expected format. -/
theorem C7_theorem :
    (∀ (env : ApiEnv) (d : ResourceData) (b b5 : String)
       (svc cfg : JsonDeviceService),
      env.bastionAPIVersion ∈ env.defaultVersionsValid →
      d.id = "dev123/svcA" →
      env.api [] (searchReq "dev123" "svcA") = Except.ok (b, 200) →
      env.parseList b = Except.ok [svc] →
      env.api [searchReq "dev123" "svcA"] (serviceReq "dev123" svc.id) =
        Except.ok (b5, 200) →
      env.parseOne b5 = Except.ok cfg →
      resourceDeviceServiceImport env d =
        ([searchReq "dev123" "svcA", serviceReq "dev123" svc.id],
         Except.ok [{ fillDeviceService d cfg with id := svc.id, device_id := "dev123" }])) ∧
    (∀ (env : ApiEnv) (d : ResourceData),
      env.bastionAPIVersion ∈ env.defaultVersionsValid →
      (goSplit d.id '/').length ≠ 2 →
      resourceDeviceServiceImport env d =
        ([], Except.error "id must be <device_id>/<service_name>")) ∧
    (∀ (env : ApiEnv) (d : ResourceData) (p n b : String)
       (rs : List JsonDeviceService),
      env.bastionAPIVersion ∈ env.defaultVersionsValid →
      goSplit d.id '/' = [p, n] →
      env.api [] (searchReq p n) = Except.ok (b, 200) →
      env.parseList b = Except.ok rs → rs.length ≠ 1 →
      resourceDeviceServiceImport env d =
        ([searchReq p n],
         Except.error ("don\x27t find service_name with id " ++ d.id ++
           " (id must be <device_id>/<service_name>)"))) := by
  refine ⟨?_, ?_, ?_⟩
  · intro env d b b5 svc cfg hver hid hapi hparse hapi2 hparse2
    unfold resourceDeviceServiceImport
    rw [versionCheckOk _ _ hver, hid]
    have hsplit : goSplit "dev123/svcA" '/' = ["dev123", "svcA"] := by decide
    rw [hsplit]
    simp [searchFound env [] "dev123" "svcA" b [svc] hapi hparse (by simp),
      readDeviceServiceOptions_ok env [searchReq "dev123" "svcA"] "dev123" svc.id
        b5 cfg hapi2 hparse2]
  · intro env d hver hlen
    unfold resourceDeviceServiceImport
    rw [versionCheckOk _ _ hver]
    rcases hsplit : goSplit d.id '/' with _ | ⟨a, _ | ⟨c, _ | ⟨e, rest⟩⟩⟩
    · rfl
    · rfl
    · rw [hsplit] at hlen
      simp at hlen
    · rfl
  · intro env d p n b rs hver hsplit hapi hparse hlen
    unfold resourceDeviceServiceImport
    rw [versionCheckOk _ _ hver, hsplit]
    simp [searchNotFound env [] p n b rs hapi hparse hlen]

/-- C7 witness: the four concrete import outcomes. -/
theorem C7_theorem_witness :
    resourceDeviceServiceImport envC7 dC7 =
      ([searchReq "dev123" "svcA", serviceReq "dev123" svcC7.id],
       Except.ok
         [{ fillDeviceService dC7 cfgC7 with id := svcC7.id, device_id := "dev123" }]) ∧
    resourceDeviceServiceImport envC7n dC7bad1 =
      ([], Except.error "id must be <device_id>/<service_name>") ∧
    resourceDeviceServiceImport envC7n dC7bad2 =
      ([], Except.error "id must be <device_id>/<service_name>") ∧
    resourceDeviceServiceImport envC7n dC7 =
      ([searchReq "dev123" "svcA"],
       Except.error ("don\x27t find service_name with id " ++ dC7.id ++
         " (id must be <device_id>/<service_name>)")) :=
  ⟨C7_theorem.1 envC7 dC7 "one" "svc" svcC7 cfgC7 (by decide) rfl rfl rfl rfl rfl,
   C7_theorem.2.1 envC7n dC7bad1 (by decide) (by decide),
   C7_theorem.2.1 envC7n dC7bad2 (by decide) (by decide),
   C7_theorem.2.2 envC7n dC7 "dev123" "svcA" "empty" [] (by decide) (by decide)
     rfl rfl (by decide)⟩

/-- C8: with an unsupported remote version every operation fails fast with zero
network calls; create, read, delete and import name the device_service kind,
but update consults the device kind gate and its error names the
wallix-bastion_device kind, not the device_service kind being operated on. -/
theorem C8_code_theorem :
    resourceDeviceServiceUpdate envC8 dC8 =
      ([], Except.error
        "resource wallix-bastion_device not available with api version 3.10") ∧
    goContains "resource wallix-bastion_device not available with api version 3.10"
      "device_service" = false ∧
    resourceDeviceServiceCreate envC8 dC8 =
      ([], Except.error
        "resource wallix-bastion_device_service not available with api version 3.10") ∧
    resourceDeviceServiceRead envC8 [] dC8 =
      ([], Except.error
        "resource wallix-bastion_device_service not available with api version 3.10") ∧
    resourceDeviceServiceDelete envC8 dC8 =
      ([], Except.error
        "resource wallix-bastion_device_service not available with api version 3.10") ∧
    resourceDeviceServiceImport envC8 dC8 =
      ([], Except.error
        "resource wallix-bastion_device_service not available with api version 3.10") :=
  ⟨rfl, by decide, rfl, rfl, rfl, rfl⟩

/-- C5: under a successful remote read of a non-default configuration, a
non-empty declared certificate whose extracted common name appears as
"/CN=name" inside the observed value leaves the resource declared (identity
kept, enable refreshed); a non-empty declared certificate whose common name
does not so appear clears the tracked identity, with the lone GET as the only
remote call (no delete); an empty declared certificate skips the check
entirely. -/
theorem C5_theorem (env : X509ApiEnv) (d : ResourceDataX509)
    (body : String) (cfg : JsonConfigX509)
    (hapi : env.api x509GetReq = Except.ok (body, 200))
    (hparse : env.parseConfig body = Except.ok cfg)
    (hdef : cfg.default = false) :
    (∀ (blk : PemBlock) (cert : Certificate),
      d.ca_certificate ≠ "" →
      env.pemDecode d.ca_certificate = some blk →
      env.parseCertificate blk.bytes = Except.ok cert →
      goContains cfg.caCertificate ("/CN=" ++ cert.subjectCommonName) = true →
      d.server_public_key = "" →
      resourceConfigX509Read env d = ([x509GetReq], GoResult.ok (fillConfigX509 d cfg)) ∧
      (fillConfigX509 d cfg).id = d.id) ∧
    (∀ (blk : PemBlock) (cert : Certificate),
      d.ca_certificate ≠ "" →
      env.pemDecode d.ca_certificate = some blk →
      env.parseCertificate blk.bytes = Except.ok cert →
      goContains cfg.caCertificate ("/CN=" ++ cert.subjectCommonName) = false →
      resourceConfigX509Read env d = ([x509GetReq], GoResult.ok { d with id := "" })) ∧
    (d.ca_certificate = "" → d.server_public_key = "" →
      resourceConfigX509Read env d = ([x509GetReq], GoResult.ok (fillConfigX509 d cfg)) ∧
      (fillConfigX509 d cfg).id = d.id) := by
  refine ⟨?_, ?_, ?_⟩
  · intro blk cert hca hpem hcert hcn hspk
    refine ⟨?_, rfl⟩
    unfold resourceConfigX509Read readConfigX509Options x509ReadServerKeyCheck
    rw [hapi]
    simp [hparse, hdef, hca, hpem, hcert, hcn, hspk, x509GetReq]
  · intro blk cert hca hpem hcert hcn
    unfold resourceConfigX509Read readConfigX509Options
    rw [hapi]
    simp [hparse, hdef, hca, hpem, hcert, hcn, x509GetReq]
  · intro hca hspk
    refine ⟨?_, rfl⟩
    unfold resourceConfigX509Read readConfigX509Options x509ReadServerKeyCheck
    rw [hapi]
    simp [hparse, hdef, hca, hspk, x509GetReq]

/-- C5 witness: the three concrete drift outcomes. -/
theorem C5_theorem_witness :
    (resourceConfigX509Read envC5 dC5a =
        ([x509GetReq], GoResult.ok (fillConfigX509 dC5a cfgC5)) ∧
      (fillConfigX509 dC5a cfgC5).id = dC5a.id) ∧
    resourceConfigX509Read envC5 dC5b =
      ([x509GetReq], GoResult.ok { dC5b with id := "" }) ∧
    (resourceConfigX509Read envC5 dC5c =
        ([x509GetReq], GoResult.ok (fillConfigX509 dC5c cfgC5)) ∧
      (fillConfigX509 dC5c cfgC5).id = dC5c.id) :=
  ⟨(C5_theorem envC5 dC5a "cfg" cfgC5 rfl rfl rfl).1 ⟨"CApem"⟩ ⟨"example.com"⟩
      (by decide) rfl rfl (by decide) rfl,
   (C5_theorem envC5 dC5b "cfg" cfgC5 rfl rfl rfl).2.1 ⟨"CApemOther"⟩ ⟨"other.com"⟩
      (by decide) rfl rfl (by decide),
   (C5_theorem envC5 dC5c "cfg" cfgC5 rfl rfl rfl).2.2 rfl rfl⟩

/-- C9: under a successful remote read of a non-default configuration, a
non-empty declared ca_certificate or server_public_key value that pem.Decode
rejects makes the read end in the nil-pointer dereference panic, not in a
recoverable error result. -/
theorem C9_theorem (env : X509ApiEnv) (d : ResourceDataX509)
    (body : String) (cfg : JsonConfigX509)
    (hapi : env.api x509GetReq = Except.ok (body, 200))
    (hparse : env.parseConfig body = Except.ok cfg)
    (hdef : cfg.default = false) :
    (d.ca_certificate ≠ "" → env.pemDecode d.ca_certificate = none →
      resourceConfigX509Read env d =
        ([x509GetReq],
         GoResult.panic "runtime error: invalid memory address or nil pointer dereference")) ∧
    (d.ca_certificate = "" → d.server_public_key ≠ "" →
      env.pemDecode d.server_public_key = none →
      resourceConfigX509Read env d =
        ([x509GetReq],
         GoResult.panic "runtime error: invalid memory address or nil pointer dereference")) := by
  constructor
  · intro hca hpem
    unfold resourceConfigX509Read readConfigX509Options
    rw [hapi]
    simp [hparse, hdef, hca, hpem]
  · intro hca hspk hpem
    unfold resourceConfigX509Read readConfigX509Options x509ReadServerKeyCheck
    rw [hapi]
    simp [hparse, hdef, hca, hspk, hpem]

/-- C9 witness: both concrete panic outcomes. -/
theorem C9_theorem_witness :
    resourceConfigX509Read envC9 dC9a =
      ([x509GetReq],
       GoResult.panic "runtime error: invalid memory address or nil pointer dereference") ∧
    resourceConfigX509Read envC9 dC9b =
      ([x509GetReq],
       GoResult.panic "runtime error: invalid memory address or nil pointer dereference") :=
  ⟨(C9_theorem envC9 dC9a "cfg" cfgC5 rfl rfl rfl).1 (by decide) rfl,
   (C9_theorem envC9 dC9b "cfg" cfgC5 rfl rfl rfl).2 rfl (by decide) rfl⟩

/-- C10: the x509 import issues no request, always succeeds, sets the tracked
identity to the constant x509Config, and its outcome is independent of the
operator-supplied identifier. -/
theorem C10_theorem :
    ∀ (d : ResourceDataX509),
      resourceConfigX509Import d = ([], Except.ok [{ d with id := "x509Config" }]) ∧
      ∀ s1 s2 : String,
        resourceConfigX509Import { d with id := s1 } =
          resourceConfigX509Import { d with id := s2 } :=
  fun _ => ⟨rfl, fun _ _ => rfl⟩

